import Mathlib

/-!
Verification of the feature-extraction and rule-based risk-scoring engine of
the scout2 health-monitoring repository (`ml-model/local_server.py` and
`ml-model/local_server_realdata.py`).

The Python code is embedded shallowly over `ℚ`:

* Python floats become exact rationals (the code only adds, subtracts,
  multiplies, divides and compares decimal constants, so `ℚ` is the
  idealised semantics of its arithmetic); the float square root used for
  standard deviations is modelled by `Rat.sqrt` (its exact value is never
  relevant to any property below: only the empty-list guard is).
* `datetime` timestamps become a `Timestamp` structure carrying the calendar
  day (an `Int` day number) and the time of day; `.date()` truncation is
  projection to the day field.  The forecast dates are day numbers relative
  to an injected `now`.
* Python's `round(x, n)` (banker's rounding, round-half-to-even) becomes
  `roundTo n`, built on `pyRoundInt`.
* `list.sort(key=..., reverse=True)` is Python's stable sort; it is modelled
  by the stable descending insertion sort `insDesc`/`sortFactorsDesc`.

All definitions are total computable functions, so the totality claims of
the specification hold by construction; the substantive content (zero
conventions, guards, orders, bounds) is proved below.
-/

/-- A timestamp: a calendar day number plus a time of day.  `.date()`
truncation in the Python code is the projection `day`. -/
structure Timestamp where
  day : Int
  tod : ℚ
deriving DecidableEq

/-- One raw health-metric record, as handed to `compute_features`. -/
structure MetricRecord where
  timestamp : Timestamp
  metricType : String
  value : ℚ
  userId : String
deriving DecidableEq

/-- The user profile dictionary: both fields may be absent
(`user_profile.get` with defaults 35 and male). -/
structure UserProfile where
  age : Option ℚ
  gender : Option String

/-- The 17-field feature vector returned by `compute_features`. -/
structure FeatureVector where
  heart_rate_mean : ℚ
  heart_rate_std : ℚ
  heart_rate_max : ℚ
  heart_rate_min : ℚ
  steps_mean : ℚ
  steps_std : ℚ
  steps_total : ℚ
  sleep_hours_mean : ℚ
  sleep_hours_std : ℚ
  calories_mean : ℚ
  calories_std : ℚ
  age : ℚ
  gender_encoded : ℚ
  days_with_data : Nat
  trend_heart_rate : ℚ
  trend_steps : ℚ
  trend_sleep : ℚ

/-- `mean(arr) = sum(arr)/len(arr) if arr else 0`. -/
def meanQ (arr : List ℚ) : ℚ :=
  if arr = [] then 0 else arr.sum / arr.length

/-- `std(arr)`: population standard deviation, 0 on the empty list.  The
float `** 0.5` is modelled by `Rat.sqrt`; only the empty-list guard is ever
used in the proofs. -/
def stdQ (arr : List ℚ) : ℚ :=
  if arr = [] then 0
  else Rat.sqrt ((arr.map (fun x => (x - meanQ arr) ^ 2)).sum / arr.length)

/-- Python `max(arr)` (guarded by the caller with `if arr else 0`). -/
def maxQ (arr : List ℚ) : ℚ :=
  match arr with
  | [] => 0
  | x :: xs => xs.foldl max x

/-- Python `min(arr)` (guarded by the caller with `if arr else 0`). -/
def minQ (arr : List ℚ) : ℚ :=
  match arr with
  | [] => 0
  | x :: xs => xs.foldl min x

/-- The OLS denominator `n*sum_x2 - sum_x*sum_x` of `compute_trend`, over
indices `0..n-1` where `n` is the length of the sub-series. -/
def trendDenom (values : List ℚ) : ℚ :=
  let n : ℚ := values.length
  let xs : List ℚ := (List.range values.length).map (fun i : Nat => (i : ℚ))
  n * (xs.map (fun x => x * x)).sum - xs.sum * xs.sum

/-- `compute_trend(values)`: simple linear-regression slope of value against
index, 0 for fewer than 2 points or a zero denominator. -/
def compute_trend (values : List ℚ) : ℚ :=
  if values.length < 2 then 0
  else
    let n : ℚ := values.length
    let xs : List ℚ := (List.range values.length).map (fun i : Nat => (i : ℚ))
    let sum_x := xs.sum
    let sum_y := values.sum
    let sum_xy := ((xs.zip values).map (fun p => p.1 * p.2)).sum
    let sum_x2 := (xs.map (fun x => x * x)).sum
    let denominator := n * sum_x2 - sum_x * sum_x
    if denominator = 0 then 0
    else (n * sum_xy - sum_x * sum_y) / denominator

/-- The heart-rate sub-series `[m['value'] for m in metrics if m['metricType'] == 'heart_rate']`. -/
def hrData (metrics : List MetricRecord) : List ℚ :=
  (metrics.filter (fun m => m.metricType == "heart_rate")).map (fun m => m.value)

/-- The steps sub-series. -/
def stepsData (metrics : List MetricRecord) : List ℚ :=
  (metrics.filter (fun m => m.metricType == "steps")).map (fun m => m.value)

/-- The sleep sub-series. -/
def sleepData (metrics : List MetricRecord) : List ℚ :=
  (metrics.filter (fun m => m.metricType == "sleep")).map (fun m => m.value)

/-- The calories sub-series. -/
def caloriesData (metrics : List MetricRecord) : List ℚ :=
  (metrics.filter (fun m => m.metricType == "calories")).map (fun m => m.value)

/-- Python `str.lower()` on the character data (ASCII case folding, as in
the gender comparison of the source); structurally recursive so that it
evaluates by kernel reduction. -/
def strLower (s : String) : String :=
  ⟨s.data.map Char.toLower⟩

/-- `compute_features(metrics, user_profile)` from `local_server.py`:
the 17 engineered features. -/
def compute_features (metrics : List MetricRecord) (user_profile : UserProfile) :
    FeatureVector :=
  let heart_rate_data := hrData metrics
  let steps_data := stepsData metrics
  let sleep_data := sleepData metrics
  let calories_data := caloriesData metrics
  let unique_days := ((metrics.map (fun m => m.timestamp.day)).dedup).length
  { heart_rate_mean := meanQ heart_rate_data
    heart_rate_std := stdQ heart_rate_data
    heart_rate_max := maxQ heart_rate_data
    heart_rate_min := minQ heart_rate_data
    steps_mean := meanQ steps_data
    steps_std := stdQ steps_data
    steps_total := steps_data.sum
    sleep_hours_mean := meanQ sleep_data
    sleep_hours_std := stdQ sleep_data
    calories_mean := meanQ calories_data
    calories_std := stdQ calories_data
    age := user_profile.age.getD 35
    gender_encoded := if strLower (user_profile.gender.getD "male") = "male" then 1 else 0
    days_with_data := unique_days
    trend_heart_rate := compute_trend heart_rate_data
    trend_steps := compute_trend steps_data
    trend_sleep := compute_trend sleep_data }

/-- The heart-rate `if/elif` block of `calculate_risk_score`, acting on the
accumulated risk. -/
def hrStep (risk x : ℚ) : ℚ :=
  if x > 100 then risk + 0.30
  else if x > 90 then risk + 0.25
  else if x > 80 then risk + 0.15
  else if x < 50 then risk + 0.20
  else if x < 60 then risk + 0.10
  else risk

/-- The steps `if/elif` block of `calculate_risk_score`. -/
def stepsStep (risk x : ℚ) : ℚ :=
  if x < 3000 then risk + 0.30
  else if x < 5000 then risk + 0.20
  else if x < 7000 then risk + 0.10
  else risk

/-- The sleep `if/elif` block of `calculate_risk_score`. -/
def sleepStep (risk x : ℚ) : ℚ :=
  if x < 5 then risk + 0.20
  else if x < 6 then risk + 0.15
  else if x < 7 then risk + 0.10
  else if x > 10 then risk + 0.10
  else risk

/-- The calories `if/elif` block of `calculate_risk_score`. -/
def caloriesStep (risk x : ℚ) : ℚ :=
  if x > 3000 then risk + 0.10
  else if x > 2800 then risk + 0.05
  else if x < 1500 then risk + 0.08
  else risk

/-- The age `if/elif` block of `calculate_risk_score`. -/
def ageStep (risk x : ℚ) : ℚ :=
  if x > 60 then risk + 0.10
  else if x > 50 then risk + 0.05
  else if x < 18 then risk + 0.03
  else risk

/-- The heart-rate trend penalty of `calculate_risk_score`. -/
def trendHrStep (risk x : ℚ) : ℚ := if x > 0.5 then risk + 0.05 else risk

/-- The steps trend penalty of `calculate_risk_score`. -/
def trendStepsStep (risk x : ℚ) : ℚ := if x < -50 then risk + 0.05 else risk

/-- The sleep trend penalty of `calculate_risk_score`. -/
def trendSleepStep (risk x : ℚ) : ℚ := if x < -0.1 then risk + 0.05 else risk

/-- `calculate_risk_score(features)`: the sequential accumulation of the
Python function (`risk = 0.0` followed by the eight blocks), clamped to
`[0,1]` by the final `max(0.0, min(1.0, risk))`. -/
def calculate_risk_score (features : FeatureVector) : ℚ :=
  max 0 (min 1
    (trendSleepStep
      (trendStepsStep
        (trendHrStep
          (ageStep
            (caloriesStep
              (sleepStep
                (stepsStep
                  (hrStep 0 features.heart_rate_mean)
                  features.steps_mean)
                features.sleep_hours_mean)
              features.calories_mean)
            features.age)
          features.trend_heart_rate)
        features.trend_steps)
      features.trend_sleep))

/-- Spec-side §4.2 rule table, heart-rate group: contribution of the first
matching band, most-severe-first. -/
def hrBand (x : ℚ) : ℚ :=
  if x > 100 then 0.30 else if x > 90 then 0.25 else if x > 80 then 0.15
  else if x < 50 then 0.20 else if x < 60 then 0.10 else 0

/-- Spec-side §4.2 rule table, steps group. -/
def stepsBand (x : ℚ) : ℚ :=
  if x < 3000 then 0.30 else if x < 5000 then 0.20 else if x < 7000 then 0.10 else 0

/-- Spec-side §4.2 rule table, sleep group. -/
def sleepBand (x : ℚ) : ℚ :=
  if x < 5 then 0.20 else if x < 6 then 0.15 else if x < 7 then 0.10
  else if x > 10 then 0.10 else 0

/-- Spec-side §4.2 rule table, calories group. -/
def caloriesBand (x : ℚ) : ℚ :=
  if x > 3000 then 0.10 else if x > 2800 then 0.05 else if x < 1500 then 0.08 else 0

/-- Spec-side §4.2 rule table, age group. -/
def ageBand (x : ℚ) : ℚ :=
  if x > 60 then 0.10 else if x > 50 then 0.05 else if x < 18 then 0.03 else 0

/-- Spec-side §4.2 rule table, heart-rate trend group. -/
def trendHrBand (x : ℚ) : ℚ := if x > 0.5 then 0.05 else 0

/-- Spec-side §4.2 rule table, steps trend group. -/
def trendStepsBand (x : ℚ) : ℚ := if x < -50 then 0.05 else 0

/-- Spec-side §4.2 rule table, sleep trend group. -/
def trendSleepBand (x : ℚ) : ℚ := if x < -0.1 then 0.05 else 0

/-- Spec-side sum of the eight rule groups of §4.2, before clamping. -/
def ruleTableSum (f : FeatureVector) : ℚ :=
  hrBand f.heart_rate_mean + stepsBand f.steps_mean + sleepBand f.sleep_hours_mean
    + caloriesBand f.calories_mean + ageBand f.age + trendHrBand f.trend_heart_rate
    + trendStepsBand f.trend_steps + trendSleepBand f.trend_sleep

/-- Python `round(x)` to the nearest integer, ties to even (banker's
rounding), on exact rationals. -/
def pyRoundInt (x : ℚ) : Int :=
  let f := ⌊x⌋
  if x - f < 1/2 then f
  else if x - f > 1/2 then f + 1
  else if f % 2 = 0 then f else f + 1

/-- Python `round(x, nd)` on exact rationals. -/
def roundTo (nd : Nat) (x : ℚ) : ℚ :=
  (pyRoundInt (x * 10 ^ nd) : ℚ) / 10 ^ nd

/-- The `risk_level` derivation of `_generate_prediction_response`. -/
def riskLevelOf (risk_score : ℚ) : String :=
  if risk_score < 0.3 then "low"
  else if risk_score < 0.6 then "medium"
  else "high"

/-- One contributing factor of the prediction response. -/
structure Factor where
  feature : String
  impact : ℚ
  status : String
deriving DecidableEq

/-- The heart-rate contributing factor of `_generate_prediction_response`. -/
def hrFactor (f : FeatureVector) : Factor :=
  { feature := "heart_rate"
    impact := roundTo 2 (|f.heart_rate_mean - 70| / 70)
    status := if f.heart_rate_mean > 80 ∨ f.heart_rate_mean < 60 then "warning" else "good" }

/-- The steps contributing factor. -/
def stepsFactor (f : FeatureVector) : Factor :=
  { feature := "steps"
    impact := roundTo 2 (|f.steps_mean - 8000| / 8000)
    status := if f.steps_mean < 5000 then "critical"
              else if f.steps_mean < 7000 then "warning" else "good" }

/-- The sleep contributing factor. -/
def sleepFactor (f : FeatureVector) : Factor :=
  { feature := "sleep"
    impact := roundTo 2 (|f.sleep_hours_mean - 7.5| / 7.5)
    status := if f.sleep_hours_mean < 6 then "critical"
              else if f.sleep_hours_mean < 7 then "warning" else "good" }

/-- The calories contributing factor. -/
def caloriesFactor (f : FeatureVector) : Factor :=
  { feature := "calories"
    impact := roundTo 2 (|f.calories_mean - 2200| / 2200)
    status := if f.calories_mean > 2800 then "warning" else "good" }

/-- Stable descending insertion: place `x` before the first element whose
impact is strictly smaller, i.e. after every already-placed element of
impact `≥ x.impact`.  Folding the original list through this reproduces
Python's stable `sort(key=lambda x: x['impact'], reverse=True)`. -/
def insDesc (x : Factor) : List Factor → List Factor
  | [] => [x]
  | y :: ys => if x.impact ≥ y.impact then x :: y :: ys else y :: insDesc x ys

/-- Stable sort by descending impact, modelling
`contributing_factors.sort(key=lambda x: x['impact'], reverse=True)`. -/
def sortFactorsDesc : List Factor → List Factor
  | [] => []
  | x :: xs => insDesc x (sortFactorsDesc xs)

/-- The sorted `contributing_factors` list of `_generate_prediction_response`. -/
def contributingFactorsOf (f : FeatureVector) : List Factor :=
  sortFactorsDesc [hrFactor f, stepsFactor f, sleepFactor f, caloriesFactor f]

/-- Recommendation message for elevated heart rate. -/
def msgHr : String := "Consider stress management techniques to lower resting heart rate"

/-- Recommendation message for low activity. -/
def msgSteps : String := "Increase daily physical activity - aim for at least 8000 steps per day"

/-- Recommendation message for short sleep. -/
def msgSleep : String := "Improve sleep quality - aim for 7-8 hours per night"

/-- Recommendation message for high calorie intake. -/
def msgCalories : String := "Monitor calorie intake and consider dietary adjustments"

/-- The fallback recommendation appended when no condition triggers. -/
def msgFallback : String := "Keep up the great work! Maintain your healthy lifestyle"

/-- The `recommendations` list of `_generate_prediction_response`: the four
conditions checked in fixed order, then the fallback if the list is empty. -/
def recommendationsOf (f : FeatureVector) : List String :=
  let recs :=
    (if f.heart_rate_mean > 80 then [msgHr] else [])
    ++ (if f.steps_mean < 7000 then [msgSteps] else [])
    ++ (if f.sleep_hours_mean < 7 then [msgSleep] else [])
    ++ (if f.calories_mean > 2500 then [msgCalories] else [])
  if recs = [] then [msgFallback] else recs

/-- One entry of the 7-day forecast.  `date` is a day number relative to the
injected `now` (the `%Y-%m-%d` formatting of consecutive days is order-
preserving, so calendar formatting is abstracted to day numbers). -/
structure TrendPoint where
  date : Int
  predicted_risk : ℚ
  confidence_lower : ℚ
  confidence_upper : ℚ
deriving DecidableEq

/-- The forecast entry for day `i` (1-based) of `_generate_prediction_response`. -/
def trendPointAt (risk_score : ℚ) (f : FeatureVector) (now : Int) (i : Nat) : TrendPoint :=
  let trend_adjustment :=
    (f.trend_heart_rate * 0.3 + f.trend_steps * (-0.0001) + f.trend_sleep * (-0.05)) * i
  let predicted_risk := max 0 (min 1 (risk_score + trend_adjustment * 0.01))
  { date := now + i
    predicted_risk := roundTo 3 predicted_risk
    confidence_lower := roundTo 3 (max 0 (predicted_risk - 0.1))
    confidence_upper := roundTo 3 (min 1 (predicted_risk + 0.1)) }

/-- The `predicted_trend` list: `for i in range(1, 8)`. -/
def predictedTrendOf (risk_score : ℚ) (f : FeatureVector) (now : Int) : List TrendPoint :=
  (List.range 7).map (fun j => trendPointAt risk_score f now (j + 1))

/-- The `prediction` object of the server response. -/
structure Prediction where
  risk_score : ℚ
  risk_level : String
  confidence : ℚ
  contributing_factors : List Factor
  recommendations : List String
  predicted_trend : List TrendPoint

/-- `_generate_prediction_response(risk_score, features, user_id)` restricted
to the returned `prediction` object, with the wall-clock `now` injected. -/
def generate_prediction_response (risk_score : ℚ) (features : FeatureVector)
    (now : Int) : Prediction :=
  { risk_score := roundTo 3 risk_score
    risk_level := riskLevelOf risk_score
    confidence := 0.85
    contributing_factors := contributingFactorsOf features
    recommendations := recommendationsOf features
    predicted_trend := predictedTrendOf risk_score features now }

/-- The real-data prediction path of `_handle_predict`: score the features,
then build the response. -/
def predict (features : FeatureVector) (now : Int) : Prediction :=
  generate_prediction_response (calculate_risk_score features) features now

/-- Rank of a factor name in the fixed evaluation order
heart_rate, steps, sleep, calories of `_generate_prediction_response`. -/
def featureRank (s : String) : Nat :=
  if s = "heart_rate" then 0
  else if s = "steps" then 1
  else if s = "sleep" then 2
  else 3

/-- The order in which a stable descending sort by impact must list two
factors: strictly larger impact first, ties resolved by the fixed
evaluation order. -/
def FactorOrd (x y : Factor) : Prop :=
  y.impact < x.impact ∨ (x.impact = y.impact ∧ featureRank x.feature < featureRank y.feature)

/-- The §8 high-risk end-to-end example: heart_rate_mean=105,
steps_mean=2000, sleep_hours_mean=4, calories_mean=3200, age=65,
trend_heart_rate=0.6, other trends 0; fields not read by the risk score
set to 0. -/
def exampleFeatures : FeatureVector :=
  { heart_rate_mean := 105
    heart_rate_std := 0
    heart_rate_max := 0
    heart_rate_min := 0
    steps_mean := 2000
    steps_std := 0
    steps_total := 0
    sleep_hours_mean := 4
    sleep_hours_std := 0
    calories_mean := 3200
    calories_std := 0
    age := 65
    gender_encoded := 0
    days_with_data := 0
    trend_heart_rate := 0.6
    trend_steps := 0
    trend_sleep := 0 }

/-- The §8 healthy end-to-end example: heart_rate_mean=68, steps_mean=8500,
sleep_hours_mean=7.5, calories_mean=2200, age=35, all trends 0. -/
def healthyFeatures : FeatureVector :=
  { heart_rate_mean := 68
    heart_rate_std := 0
    heart_rate_max := 0
    heart_rate_min := 0
    steps_mean := 8500
    steps_std := 0
    steps_total := 0
    sleep_hours_mean := 7.5
    sleep_hours_std := 0
    calories_mean := 2200
    calories_std := 0
    age := 35
    gender_encoded := 1
    days_with_data := 30
    trend_heart_rate := 0
    trend_steps := 0
    trend_sleep := 0 }

theorem pyRoundInt_le (x : ℚ) : (pyRoundInt x : ℚ) ≤ x + 1/2 := by
  have hf := Int.floor_le x
  have hf1 := Int.lt_floor_add_one x
  simp only [pyRoundInt]
  split_ifs with h1 h2 h3 <;> push_cast <;> linarith

theorem le_pyRoundInt (x : ℚ) : x - 1/2 ≤ (pyRoundInt x : ℚ) := by
  have hf := Int.floor_le x
  have hf1 := Int.lt_floor_add_one x
  simp only [pyRoundInt]
  split_ifs with h1 h2 h3 <;> push_cast <;> linarith

theorem pyRoundInt_mono {x y : ℚ} (h : x ≤ y) : pyRoundInt x ≤ pyRoundInt y := by
  by_contra hc
  push_neg at hc
  have h1 : (pyRoundInt y : ℚ) + 1 ≤ pyRoundInt x := by
    exact_mod_cast Int.add_one_le_iff.mpr hc
  have h2 := pyRoundInt_le x
  have h3 := le_pyRoundInt y
  have hxy : x = y := le_antisymm h (by linarith)
  subst hxy
  exact absurd hc (lt_irrefl _)

theorem roundTo_mono (nd : Nat) {x y : ℚ} (h : x ≤ y) : roundTo nd x ≤ roundTo nd y := by
  have hp : (0:ℚ) < 10 ^ nd := by positivity
  unfold roundTo
  have hm : x * 10 ^ nd ≤ y * 10 ^ nd := by
    exact mul_le_mul_of_nonneg_right h (le_of_lt hp)
  have hc : ((pyRoundInt (x * 10 ^ nd) : Int) : ℚ) ≤ ((pyRoundInt (y * 10 ^ nd) : Int) : ℚ) := by
    exact_mod_cast pyRoundInt_mono hm
  gcongr

theorem hrStep_eq (r x : ℚ) : hrStep r x = r + hrBand x := by
  simp only [hrStep, hrBand]; split_ifs <;> ring

theorem stepsStep_eq (r x : ℚ) : stepsStep r x = r + stepsBand x := by
  simp only [stepsStep, stepsBand]; split_ifs <;> ring

theorem sleepStep_eq (r x : ℚ) : sleepStep r x = r + sleepBand x := by
  simp only [sleepStep, sleepBand]; split_ifs <;> ring

theorem caloriesStep_eq (r x : ℚ) : caloriesStep r x = r + caloriesBand x := by
  simp only [caloriesStep, caloriesBand]; split_ifs <;> ring

theorem ageStep_eq (r x : ℚ) : ageStep r x = r + ageBand x := by
  simp only [ageStep, ageBand]; split_ifs <;> ring

theorem trendHrStep_eq (r x : ℚ) : trendHrStep r x = r + trendHrBand x := by
  simp only [trendHrStep, trendHrBand]; split_ifs <;> ring

theorem trendStepsStep_eq (r x : ℚ) : trendStepsStep r x = r + trendStepsBand x := by
  simp only [trendStepsStep, trendStepsBand]; split_ifs <;> ring

theorem trendSleepStep_eq (r x : ℚ) : trendSleepStep r x = r + trendSleepBand x := by
  simp only [trendSleepStep, trendSleepBand]; split_ifs <;> ring

theorem calculate_risk_score_eq_ruleTable (f : FeatureVector) :
    calculate_risk_score f = max 0 (min 1 (ruleTableSum f)) := by
  simp only [calculate_risk_score, ruleTableSum, hrStep_eq, stepsStep_eq, sleepStep_eq,
    caloriesStep_eq, ageStep_eq, trendHrStep_eq, trendStepsStep_eq, trendSleepStep_eq,
    zero_add]

/-- Claim C1: for every feature vector, `calculate_risk_score` returns the
sum, over the eight rule groups of §4.2, of the contribution of the first
matching band in each group (most-severe-first), clamped to `[0,1]`; on the
§8 example (heart_rate_mean=105, steps_mean=2000, sleep_hours_mean=4,
calories_mean=3200, age=65, trend_heart_rate=0.6, other trends 0) the
unclamped sum is 1.05 and the returned score is the clamped 1.0. -/
theorem claim_C1_rule_table_score :
    (∀ f : FeatureVector, calculate_risk_score f = max 0 (min 1 (ruleTableSum f)))
    ∧ ruleTableSum exampleFeatures = 1.05
    ∧ calculate_risk_score exampleFeatures = 1 := by
  refine ⟨calculate_risk_score_eq_ruleTable, ?_, ?_⟩
  · norm_num [ruleTableSum, hrBand, stepsBand, sleepBand, caloriesBand, ageBand,
      trendHrBand, trendStepsBand, trendSleepBand, exampleFeatures]
  · rw [calculate_risk_score_eq_ruleTable]
    norm_num [ruleTableSum, hrBand, stepsBand, sleepBand, caloriesBand, ageBand,
      trendHrBand, trendStepsBand, trendSleepBand, exampleFeatures]

/-- Claim C2: for every risk score `s` in `[0,1]`, the derived risk level is
"low" when `s < 0.3`, "medium" when `0.3 ≤ s < 0.6` and "high" when
`0.6 ≤ s`: the comparisons are strict, so boundary values fall in the
higher-severity band. -/
theorem claim_C2_risk_level_bands (s : ℚ) (h0 : 0 ≤ s) (h1 : s ≤ 1) :
    (s < 0.3 → riskLevelOf s = "low")
    ∧ (0.3 ≤ s → s < 0.6 → riskLevelOf s = "medium")
    ∧ (0.6 ≤ s → riskLevelOf s = "high") := by
  refine ⟨fun h => ?_, fun h h2 => ?_, fun h => ?_⟩
  · rw [riskLevelOf, if_pos h]
  · rw [riskLevelOf, if_neg (not_lt.mpr h), if_pos h2]
  · rw [riskLevelOf, if_neg (not_lt.mpr (by linarith)), if_neg (not_lt.mpr h)]

theorem claim_C2_witness :
    riskLevelOf 0.2999 = "low" ∧ riskLevelOf 0.3 = "medium"
    ∧ riskLevelOf 0.5999 = "medium" ∧ riskLevelOf 0.6 = "high" :=
  ⟨(claim_C2_risk_level_bands 0.2999 (by norm_num) (by norm_num)).1 (by norm_num),
   (claim_C2_risk_level_bands 0.3 (by norm_num) (by norm_num)).2.1 (by norm_num) (by norm_num),
   (claim_C2_risk_level_bands 0.5999 (by norm_num) (by norm_num)).2.1 (by norm_num) (by norm_num),
   (claim_C2_risk_level_bands 0.6 (by norm_num) (by norm_num)).2.2 (by norm_num)⟩

/-- Claim C3: `compute_features` is total (a total Lean function by
construction, mirroring the guarded Python) and for a metric type with an
empty sub-series every corresponding aggregate — mean, std, max, min,
total — is 0 (not ±infinity), and the corresponding trend is 0. -/
theorem claim_C3_empty_subseries_zero (metrics : List MetricRecord) (profile : UserProfile) :
    (hrData metrics = [] →
      (compute_features metrics profile).heart_rate_mean = 0
      ∧ (compute_features metrics profile).heart_rate_std = 0
      ∧ (compute_features metrics profile).heart_rate_max = 0
      ∧ (compute_features metrics profile).heart_rate_min = 0
      ∧ (compute_features metrics profile).trend_heart_rate = 0)
    ∧ (stepsData metrics = [] →
      (compute_features metrics profile).steps_mean = 0
      ∧ (compute_features metrics profile).steps_std = 0
      ∧ (compute_features metrics profile).steps_total = 0
      ∧ (compute_features metrics profile).trend_steps = 0)
    ∧ (sleepData metrics = [] →
      (compute_features metrics profile).sleep_hours_mean = 0
      ∧ (compute_features metrics profile).sleep_hours_std = 0
      ∧ (compute_features metrics profile).trend_sleep = 0)
    ∧ (caloriesData metrics = [] →
      (compute_features metrics profile).calories_mean = 0
      ∧ (compute_features metrics profile).calories_std = 0) := by
  refine ⟨fun h => ?_, fun h => ?_, fun h => ?_, fun h => ?_⟩ <;>
    simp [compute_features, h, meanQ, stdQ, maxQ, minQ, compute_trend]

theorem claim_C3_witness :
    (compute_features [] ⟨none, none⟩).heart_rate_mean = 0
    ∧ (compute_features [] ⟨none, none⟩).heart_rate_max = 0
    ∧ (compute_features [] ⟨none, none⟩).steps_total = 0
    ∧ (compute_features [] ⟨none, none⟩).trend_sleep = 0 :=
  ⟨((claim_C3_empty_subseries_zero [] ⟨none, none⟩).1 rfl).1,
   ((claim_C3_empty_subseries_zero [] ⟨none, none⟩).1 rfl).2.2.1,
   ((claim_C3_empty_subseries_zero [] ⟨none, none⟩).2.1 rfl).2.2.1,
   ((claim_C3_empty_subseries_zero [] ⟨none, none⟩).2.2.1 rfl).2.2⟩

/-- Claim C8: gender encoding never crashes for any literal gender value (a
total function of the profile); a value whose lower-casing equals "male"
encodes to 1, any other literal encodes to 0, and an absent gender field
defaults to male/1. -/
theorem claim_C8_gender_encoding (metrics : List MetricRecord) (profile : UserProfile) :
    (profile.gender = none → (compute_features metrics profile).gender_encoded = 1)
    ∧ (∀ g : String, profile.gender = some g →
        ((strLower g = "male" → (compute_features metrics profile).gender_encoded = 1)
         ∧ (strLower g ≠ "male" → (compute_features metrics profile).gender_encoded = 0))) := by
  refine ⟨fun h => ?_, fun g hg => ⟨fun h => ?_, fun h => ?_⟩⟩
  · simp only [compute_features, h, Option.getD_none]
    rw [if_pos (by decide : strLower "male" = "male")]
  · simp only [compute_features, hg, Option.getD_some]
    rw [if_pos h]
  · simp only [compute_features, hg, Option.getD_some]
    rw [if_neg h]

theorem claim_C8_witness :
    (compute_features [] ⟨none, none⟩).gender_encoded = 1
    ∧ (compute_features [] ⟨none, some "MALE"⟩).gender_encoded = 1
    ∧ (compute_features [] ⟨none, some "female"⟩).gender_encoded = 0 :=
  ⟨(claim_C8_gender_encoding [] ⟨none, none⟩).1 rfl,
   ((claim_C8_gender_encoding [] ⟨none, some "MALE"⟩).2 "MALE" rfl).1 (by decide),
   ((claim_C8_gender_encoding [] ⟨none, some "female"⟩).2 "female" rfl).2 (by decide)⟩

/-- Claim C9: a record whose `metricType` is not one of heart_rate, steps,
sleep, calories is excluded from all four sub-series — it changes none of
the 16 metric- and profile-derived features — while `days_with_data` counts
the distinct calendar days (timestamps truncated to day) of the union of
all records, whatever their metric type. -/
theorem claim_C9_unknown_metric_type (l1 l2 : List MetricRecord) (r : MetricRecord)
    (profile : UserProfile)
    (h : r.metricType ∉ (["heart_rate", "steps", "sleep", "calories"] : List String)) :
    ((compute_features (l1 ++ r :: l2) profile).heart_rate_mean
        = (compute_features (l1 ++ l2) profile).heart_rate_mean
     ∧ (compute_features (l1 ++ r :: l2) profile).heart_rate_std
        = (compute_features (l1 ++ l2) profile).heart_rate_std
     ∧ (compute_features (l1 ++ r :: l2) profile).heart_rate_max
        = (compute_features (l1 ++ l2) profile).heart_rate_max
     ∧ (compute_features (l1 ++ r :: l2) profile).heart_rate_min
        = (compute_features (l1 ++ l2) profile).heart_rate_min
     ∧ (compute_features (l1 ++ r :: l2) profile).steps_mean
        = (compute_features (l1 ++ l2) profile).steps_mean
     ∧ (compute_features (l1 ++ r :: l2) profile).steps_std
        = (compute_features (l1 ++ l2) profile).steps_std
     ∧ (compute_features (l1 ++ r :: l2) profile).steps_total
        = (compute_features (l1 ++ l2) profile).steps_total
     ∧ (compute_features (l1 ++ r :: l2) profile).sleep_hours_mean
        = (compute_features (l1 ++ l2) profile).sleep_hours_mean
     ∧ (compute_features (l1 ++ r :: l2) profile).sleep_hours_std
        = (compute_features (l1 ++ l2) profile).sleep_hours_std
     ∧ (compute_features (l1 ++ r :: l2) profile).calories_mean
        = (compute_features (l1 ++ l2) profile).calories_mean
     ∧ (compute_features (l1 ++ r :: l2) profile).calories_std
        = (compute_features (l1 ++ l2) profile).calories_std
     ∧ (compute_features (l1 ++ r :: l2) profile).age
        = (compute_features (l1 ++ l2) profile).age
     ∧ (compute_features (l1 ++ r :: l2) profile).gender_encoded
        = (compute_features (l1 ++ l2) profile).gender_encoded
     ∧ (compute_features (l1 ++ r :: l2) profile).trend_heart_rate
        = (compute_features (l1 ++ l2) profile).trend_heart_rate
     ∧ (compute_features (l1 ++ r :: l2) profile).trend_steps
        = (compute_features (l1 ++ l2) profile).trend_steps
     ∧ (compute_features (l1 ++ r :: l2) profile).trend_sleep
        = (compute_features (l1 ++ l2) profile).trend_sleep)
    ∧ (∀ metrics : List MetricRecord,
        (compute_features metrics profile).days_with_data
          = (metrics.map (fun m => m.timestamp.day)).toFinset.card) := by
  simp only [List.mem_cons, List.not_mem_nil, or_false, not_or] at h
  obtain ⟨hhr, hst, hsl, hca⟩ := h
  constructor
  · simp [compute_features, hrData, stepsData, sleepData, caloriesData, List.filter_cons,
      hhr, hst, hsl, hca]
  · intro metrics
    simp [compute_features, List.card_toFinset]

theorem claim_C9_witness :
    (compute_features [(⟨⟨0, 0⟩, "blood_pressure", 5, "u"⟩ : MetricRecord)] ⟨none, none⟩).heart_rate_mean
      = (compute_features [] ⟨none, none⟩).heart_rate_mean
    ∧ (compute_features [(⟨⟨0, 0⟩, "blood_pressure", 5, "u"⟩ : MetricRecord)] ⟨none, none⟩).days_with_data
      = ([(⟨⟨0, 0⟩, "blood_pressure", 5, "u"⟩ : MetricRecord)].map
          (fun m => m.timestamp.day)).toFinset.card :=
  ⟨(claim_C9_unknown_metric_type [] [] ⟨⟨0, 0⟩, "blood_pressure", 5, "u"⟩ ⟨none, none⟩
      (by decide)).1.1,
   (claim_C9_unknown_metric_type [] [] ⟨⟨0, 0⟩, "blood_pressure", 5, "u"⟩ ⟨none, none⟩
      (by decide)).2 [⟨⟨0, 0⟩, "blood_pressure", 5, "u"⟩]⟩

theorem list_sum_map_add (l : List Nat) (f g : Nat → ℚ) :
    (l.map (fun i => f i + g i)).sum = (l.map f).sum + (l.map g).sum := by
  induction l with
  | nil => simp
  | cons a t ih => simp [ih]; ring

theorem list_sum_map_mul (c : ℚ) (l : List Nat) (f : Nat → ℚ) :
    (l.map (fun i => c * f i)).sum = c * (l.map f).sum := by
  induction l with
  | nil => simp
  | cons a t ih => simp [ih]; ring

theorem list_sum_map_const (l : List Nat) (c : ℚ) :
    (l.map (fun _ => c)).sum = l.length * c := by
  induction l with
  | nil => simp
  | cons a t ih => simp [ih]; ring

theorem listRangeCast_sum (n : Nat) :
    ((List.range n).map (fun i : Nat => (i : ℚ))).sum = n * (n - 1) / 2 := by
  induction n with
  | zero => simp
  | succ m ih =>
      rw [List.range_succ, List.map_append, List.sum_append, ih]
      simp only [List.map_cons, List.map_nil, List.sum_cons, List.sum_nil, add_zero]
      push_cast
      ring

theorem listRangeCast_sq_sum (n : Nat) :
    ((List.range n).map (fun i : Nat => (i : ℚ) * i)).sum
      = n * (n - 1) * (2 * n - 1) / 6 := by
  induction n with
  | zero => simp
  | succ m ih =>
      rw [List.range_succ, List.map_append, List.sum_append, ih]
      simp only [List.map_cons, List.map_nil, List.sum_cons, List.sum_nil, add_zero]
      push_cast
      ring

theorem compute_trend_arith (a k : ℚ) (n : Nat) (hn : 2 ≤ n) :
    compute_trend ((List.range n).map (fun i : Nat => a + k * i)) = k := by
  have hlen : ((List.range n).map (fun i : Nat => a + k * (i : ℚ))).length = n := by
    rw [List.length_map, List.length_range]
  have hSx := listRangeCast_sum n
  have hSx2 := listRangeCast_sq_sum n
  have hSy : ((List.range n).map (fun i : Nat => a + k * (i : ℚ))).sum
      = (n : ℚ) * a + k * ((n : ℚ) * (n - 1) / 2) := by
    rw [list_sum_map_add (List.range n) (fun _ => a) (fun i => k * i),
      list_sum_map_const, list_sum_map_mul k (List.range n) (fun i : Nat => (i : ℚ)), hSx]
    rw [List.length_range]
  have hzip : ((((List.range n).map (fun i : Nat => (i : ℚ))).zip
      ((List.range n).map (fun i : Nat => a + k * i))).map (fun p => p.1 * p.2)).sum
      = (n : ℚ) * a * ((n : ℚ) - 1) / 2 + k * ((n : ℚ) * (n - 1) * (2 * n - 1) / 6) := by
    rw [List.zip_map', List.map_map]
    have hfun : ((fun p : ℚ × ℚ => p.1 * p.2) ∘ fun i : Nat => ((i : ℚ), a + k * i))
        = fun i : Nat => a * (i : ℚ) + k * ((i : ℚ) * i) := by
      funext i
      simp only [Function.comp_apply]
      ring
    rw [hfun, list_sum_map_add (List.range n) (fun i : Nat => a * i)
        (fun i : Nat => k * ((i : ℚ) * i)),
      list_sum_map_mul a (List.range n) (fun i : Nat => (i : ℚ)),
      list_sum_map_mul k (List.range n) (fun i : Nat => (i : ℚ) * i), hSx, hSx2]
    ring
  have hsq : (((List.range n).map (fun i : Nat => (i : ℚ))).map (fun x => x * x)).sum
      = (n : ℚ) * (n - 1) * (2 * n - 1) / 6 := by
    rw [List.map_map]
    have hfun : ((fun x : ℚ => x * x) ∘ fun i : Nat => (i : ℚ))
        = fun i : Nat => (i : ℚ) * i := by
      funext i
      simp only [Function.comp_apply]
    rw [hfun, hSx2]
  have hn2 : (2 : ℚ) ≤ (n : ℚ) := by exact_mod_cast hn
  have hdpos : 0 < (n : ℚ) * ((n : ℚ) * (n - 1) * (2 * n - 1) / 6)
      - ((n : ℚ) * (n - 1) / 2) * ((n : ℚ) * (n - 1) / 2) := by
    have he : (n : ℚ) * ((n : ℚ) * (n - 1) * (2 * n - 1) / 6)
        - ((n : ℚ) * (n - 1) / 2) * ((n : ℚ) * (n - 1) / 2)
        = (n : ℚ) ^ 2 * (((n : ℚ) - 1) * (((n : ℚ) + 1) / 12)) := by ring
    rw [he]
    have h1 : 0 < (n : ℚ) - 1 := by linarith
    have h2 : 0 < ((n : ℚ) + 1) / 12 := by linarith
    have h3 : 0 < (n : ℚ) ^ 2 := by positivity
    exact mul_pos h3 (mul_pos h1 h2)
  simp only [compute_trend, hlen]
  rw [if_neg (by omega : ¬ n < 2), hzip, hsq, hSy, listRangeCast_sum,
    if_neg (ne_of_gt hdpos)]
  rw [div_eq_iff (ne_of_gt hdpos)]
  ring

/-- Claim C7: `compute_trend` returns 0 when the sub-series has fewer than
2 points or the OLS denominator is 0; a constant sub-series of length ≥ 2
has trend 0, and an arithmetic-progression sub-series with step `k` has
trend exactly `k`. -/
theorem claim_C7_trend_ols :
    (∀ values : List ℚ, values.length < 2 → compute_trend values = 0)
    ∧ (∀ values : List ℚ, trendDenom values = 0 → compute_trend values = 0)
    ∧ (∀ (c : ℚ) (n : Nat), 2 ≤ n → compute_trend (List.replicate n c) = 0)
    ∧ (∀ (a k : ℚ) (n : Nat), 2 ≤ n →
        compute_trend ((List.range n).map (fun i : Nat => a + k * i)) = k) := by
  refine ⟨fun values h => ?_, fun values h => ?_, fun c n hn => ?_, fun a k n hn => ?_⟩
  · simp only [compute_trend]
    rw [if_pos h]
  · simp only [trendDenom] at h
    simp only [compute_trend]
    split_ifs <;> rfl
  · have h1 : (List.range n).map (fun i : Nat => c + 0 * (i : ℚ)) = List.replicate n c := by
      have : (fun i : Nat => c + 0 * (i : ℚ)) = fun _ : Nat => c := by
        funext i
        ring
      rw [this, List.map_const', List.length_range]
    have h2 := compute_trend_arith c 0 n hn
    rw [h1] at h2
    exact h2
  · exact compute_trend_arith a k n hn

theorem claim_C7_witness :
    compute_trend ([] : List ℚ) = 0
    ∧ compute_trend ([5] : List ℚ) = 0
    ∧ compute_trend (List.replicate 3 (7 : ℚ)) = 0
    ∧ compute_trend ((List.range 4).map (fun i : Nat => (2 : ℚ) + 3 * i)) = 3 :=
  ⟨claim_C7_trend_ols.1 [] (by norm_num),
   claim_C7_trend_ols.2.1 [5] (by norm_num [trendDenom, List.range_succ]),
   claim_C7_trend_ols.2.2.1 7 3 (by norm_num),
   claim_C7_trend_ols.2.2.2 2 3 4 (by norm_num)⟩

/-- Claim C6: the recommendations list checks, in fixed order,
heart_rate_mean>80, steps_mean<7000, sleep_hours_mean<7, calories_mean>2500,
appending each message at most once (the list is a sublist of the four
messages in evaluation order, containing each message exactly when its
condition holds); it is never empty, and equals the single fallback
message exactly when no condition holds. -/
theorem claim_C6_recommendations (f : FeatureVector) :
    recommendationsOf f ≠ []
    ∧ (recommendationsOf f = [msgFallback]
        ↔ (¬ f.heart_rate_mean > 80 ∧ ¬ f.steps_mean < 7000
           ∧ ¬ f.sleep_hours_mean < 7 ∧ ¬ f.calories_mean > 2500))
    ∧ ((f.heart_rate_mean > 80 ∨ f.steps_mean < 7000 ∨ f.sleep_hours_mean < 7
        ∨ f.calories_mean > 2500) →
        ((recommendationsOf f).Sublist [msgHr, msgSteps, msgSleep, msgCalories]
         ∧ (msgHr ∈ recommendationsOf f ↔ f.heart_rate_mean > 80)
         ∧ (msgSteps ∈ recommendationsOf f ↔ f.steps_mean < 7000)
         ∧ (msgSleep ∈ recommendationsOf f ↔ f.sleep_hours_mean < 7)
         ∧ (msgCalories ∈ recommendationsOf f ↔ f.calories_mean > 2500))) := by
  by_cases h1 : f.heart_rate_mean > 80 <;>
    by_cases h2 : f.steps_mean < 7000 <;>
      by_cases h3 : f.sleep_hours_mean < 7 <;>
        by_cases h4 : f.calories_mean > 2500 <;>
          simp [recommendationsOf, h1, h2, h3, h4, msgHr, msgSteps, msgSleep,
            msgCalories, msgFallback]

theorem claim_C6_witness :
    recommendationsOf healthyFeatures = [msgFallback]
    ∧ (recommendationsOf exampleFeatures).Sublist [msgHr, msgSteps, msgSleep, msgCalories] :=
  ⟨((claim_C6_recommendations healthyFeatures).2.1).mpr
      (by norm_num [healthyFeatures]),
   ((claim_C6_recommendations exampleFeatures).2.2
      (Or.inl (by norm_num [exampleFeatures]))).1⟩

theorem factorOrd_impact {x y : Factor} (h : FactorOrd x y) : y.impact ≤ x.impact := by
  rcases h with h | ⟨h, _⟩
  · exact le_of_lt h
  · exact le_of_eq h.symm

theorem mem_insDesc {z x : Factor} {l : List Factor} :
    z ∈ insDesc x l ↔ z = x ∨ z ∈ l := by
  induction l with
  | nil => simp [insDesc]
  | cons y ys ih =>
      simp only [insDesc]
      split_ifs with h
      · simp [List.mem_cons]
      · simp only [List.mem_cons, ih]
        tauto

theorem insDesc_perm (x : Factor) (l : List Factor) : (insDesc x l).Perm (x :: l) := by
  induction l with
  | nil => simp [insDesc]
  | cons y ys ih =>
      simp only [insDesc]
      split_ifs with h
      · exact List.Perm.refl _
      · exact (ih.cons y).trans (List.Perm.swap x y ys)

theorem pairwise_insDesc {x : Factor} {l : List Factor} (hl : l.Pairwise FactorOrd)
    (hx : ∀ y ∈ l, featureRank x.feature < featureRank y.feature) :
    (insDesc x l).Pairwise FactorOrd := by
  induction l with
  | nil => simp [insDesc]
  | cons y ys ih =>
      have hy := (List.pairwise_cons.mp hl).1
      have hys := (List.pairwise_cons.mp hl).2
      simp only [insDesc]
      split_ifs with h
      · refine List.Pairwise.cons ?_ hl
        intro z hz
        rcases List.mem_cons.mp hz with rfl | hz2
        · rcases eq_or_lt_of_le h with heq | hlt
          · exact Or.inr ⟨heq.symm, hx z (List.mem_cons_self _ _)⟩
          · exact Or.inl hlt
        · have hzy : z.impact ≤ y.impact := factorOrd_impact (hy z hz2)
          rcases eq_or_lt_of_le (le_trans hzy h) with heq | hlt
          · exact Or.inr ⟨heq.symm, hx z (List.mem_cons_of_mem _ hz2)⟩
          · exact Or.inl hlt
      · refine List.Pairwise.cons ?_
          (ih hys (fun z hz => hx z (List.mem_cons_of_mem _ hz)))
        intro z hz
        rcases mem_insDesc.mp hz with rfl | hz2
        · exact Or.inl (lt_of_not_ge h)
        · exact hy z hz2

/-- Claim C5: `contributing_factors` has exactly 4 entries, one per metric
(a permutation of the four factor records built in evaluation order), each
impact is `|mean − baseline| / baseline` rounded to 2 decimals with
baselines 70, 8000, 7.5, 2200, and the list is pairwise ordered by
non-increasing impact with equal impacts kept in the evaluation order
heart_rate, steps, sleep, calories (the stable tie-break). -/
theorem claim_C5_contributing_factors (f : FeatureVector) :
    (contributingFactorsOf f).length = 4
    ∧ (contributingFactorsOf f).Perm
        [hrFactor f, stepsFactor f, sleepFactor f, caloriesFactor f]
    ∧ (hrFactor f).impact = roundTo 2 (|f.heart_rate_mean - 70| / 70)
    ∧ (stepsFactor f).impact = roundTo 2 (|f.steps_mean - 8000| / 8000)
    ∧ (sleepFactor f).impact = roundTo 2 (|f.sleep_hours_mean - 7.5| / 7.5)
    ∧ (caloriesFactor f).impact = roundTo 2 (|f.calories_mean - 2200| / 2200)
    ∧ (contributingFactorsOf f).Pairwise FactorOrd := by
  have hq3 : (insDesc (stepsFactor f) (insDesc (sleepFactor f) [caloriesFactor f])).Perm
      [stepsFactor f, sleepFactor f, caloriesFactor f] :=
    (insDesc_perm (stepsFactor f) _).trans ((insDesc_perm (sleepFactor f) _).cons _)
  have hperm : (contributingFactorsOf f).Perm
      [hrFactor f, stepsFactor f, sleepFactor f, caloriesFactor f] :=
    (insDesc_perm (hrFactor f) _).trans (hq3.cons _)
  have p1 : ([caloriesFactor f] : List Factor).Pairwise FactorOrd := by simp
  have p2 : (insDesc (sleepFactor f) [caloriesFactor f]).Pairwise FactorOrd := by
    refine pairwise_insDesc p1 ?_
    intro y hy
    rcases List.mem_singleton.mp hy with rfl
    simp [hrFactor, stepsFactor, sleepFactor, caloriesFactor, featureRank]
  have p3 : (insDesc (stepsFactor f) (insDesc (sleepFactor f)
      [caloriesFactor f])).Pairwise FactorOrd := by
    refine pairwise_insDesc p2 ?_
    intro y hy
    rcases mem_insDesc.mp hy with rfl | hy2
    · simp [hrFactor, stepsFactor, sleepFactor, caloriesFactor, featureRank]
    · rcases List.mem_singleton.mp hy2 with rfl
      simp [hrFactor, stepsFactor, sleepFactor, caloriesFactor, featureRank]
  have p4 : (contributingFactorsOf f).Pairwise FactorOrd := by
    show (insDesc (hrFactor f) (insDesc (stepsFactor f) (insDesc (sleepFactor f)
      [caloriesFactor f]))).Pairwise FactorOrd
    refine pairwise_insDesc p3 ?_
    intro y hy
    rcases mem_insDesc.mp hy with rfl | hy2
    · simp [hrFactor, stepsFactor, sleepFactor, caloriesFactor, featureRank]
    · rcases mem_insDesc.mp hy2 with rfl | hy3
      · simp [hrFactor, stepsFactor, sleepFactor, caloriesFactor, featureRank]
      · rcases List.mem_singleton.mp hy3 with rfl
        simp [hrFactor, stepsFactor, sleepFactor, caloriesFactor, featureRank]
  exact ⟨hperm.length_eq.trans rfl, hperm, rfl, rfl, rfl, rfl, p4⟩

/-- Claim C4: `predicted_trend` has exactly 7 entries with strictly
increasing dates 1..7 days after `now`; each entry's `predicted_risk` is
`clamp(risk_score + ((trend_heart_rate*0.3 + trend_steps*(-0.0001) +
trend_sleep*(-0.05)) * i) * 0.01, 0, 1)` rounded to 3 decimals, each
confidence bound is the ±0.1 offset of the clamped point estimate,
independently clamped to `[0,1]` and rounded to 3 decimals, and every entry
satisfies `confidence_lower ≤ predicted_risk ≤ confidence_upper`. -/
theorem claim_C4_predicted_trend (risk_score : ℚ) (f : FeatureVector) (now : Int) :
    (predictedTrendOf risk_score f now).length = 7
    ∧ (predictedTrendOf risk_score f now).map (fun p => p.date)
        = [now + 1, now + 2, now + 3, now + 4, now + 5, now + 6, now + 7]
    ∧ List.Chain' (fun p q : TrendPoint => p.date < q.date)
        (predictedTrendOf risk_score f now)
    ∧ (∀ i : Nat, trendPointAt risk_score f now i =
        { date := now + i
          predicted_risk := roundTo 3 (max 0 (min 1 (risk_score
            + ((f.trend_heart_rate * 0.3 + f.trend_steps * (-0.0001)
               + f.trend_sleep * (-0.05)) * i) * 0.01)))
          confidence_lower := roundTo 3 (max 0 (min 1 (max 0 (min 1 (risk_score
            + ((f.trend_heart_rate * 0.3 + f.trend_steps * (-0.0001)
               + f.trend_sleep * (-0.05)) * i) * 0.01)) - 0.1)))
          confidence_upper := roundTo 3 (max 0 (min 1 (max 0 (min 1 (risk_score
            + ((f.trend_heart_rate * 0.3 + f.trend_steps * (-0.0001)
               + f.trend_sleep * (-0.05)) * i) * 0.01)) + 0.1))) })
    ∧ (∀ p ∈ predictedTrendOf risk_score f now,
        p.confidence_lower ≤ p.predicted_risk ∧ p.predicted_risk ≤ p.confidence_upper) := by
  refine ⟨by simp [predictedTrendOf], ?_, ?_, ?_, ?_⟩
  · simp [predictedTrendOf, trendPointAt, List.range_succ]
  · simp only [predictedTrendOf, List.range_succ, List.range_zero, List.map_append,
      List.map_cons, List.map_nil, List.nil_append, List.cons_append, List.chain'_cons,
      List.chain'_singleton, trendPointAt]
    refine ⟨by omega, by omega, by omega, by omega, by omega, by omega, trivial⟩
  · intro i
    simp only [trendPointAt, TrendPoint.mk.injEq]
    set Q : ℚ := max 0 (min 1 (risk_score + ((f.trend_heart_rate * 0.3
      + f.trend_steps * (-0.0001) + f.trend_sleep * (-0.05)) * (i : ℚ)) * 0.01)) with hQ
    have hq0 : (0 : ℚ) ≤ Q := by
      rw [hQ]
      exact le_max_left _ _
    have hq1 : Q ≤ 1 := by
      rw [hQ]
      exact max_le (by norm_num) (min_le_left _ _)
    refine ⟨trivial, trivial, ?_, ?_⟩
    · rw [min_eq_right (by linarith : Q - 0.1 ≤ (1 : ℚ))]
    · rw [max_eq_right (le_min (by norm_num : (0 : ℚ) ≤ 1) (by linarith : (0 : ℚ) ≤ Q + 0.1))]
  · intro p hp
    obtain ⟨j, _, rfl⟩ := List.mem_map.mp hp
    have hp0 : (0 : ℚ) ≤ max 0 (min 1 (risk_score
        + ((f.trend_heart_rate * 0.3 + f.trend_steps * (-0.0001)
           + f.trend_sleep * (-0.05)) * (j + 1 : Nat)) * 0.01)) := le_max_left _ _
    have hp1 : max 0 (min 1 (risk_score
        + ((f.trend_heart_rate * 0.3 + f.trend_steps * (-0.0001)
           + f.trend_sleep * (-0.05)) * (j + 1 : Nat)) * 0.01)) ≤ 1 :=
      max_le (by norm_num) (min_le_left _ _)
    simp only [trendPointAt]
    constructor
    · exact roundTo_mono 3 (max_le hp0 (by linarith))
    · exact roundTo_mono 3 (le_min hp1 (by linarith))

theorem claim_C4_witness :
    ((predictedTrendOf 0.5 exampleFeatures 0).length = 7)
    ∧ ((trendPointAt 0.5 exampleFeatures 0 1).confidence_lower
        ≤ (trendPointAt 0.5 exampleFeatures 0 1).predicted_risk
       ∧ (trendPointAt 0.5 exampleFeatures 0 1).predicted_risk
        ≤ (trendPointAt 0.5 exampleFeatures 0 1).confidence_upper) :=
  ⟨(claim_C4_predicted_trend 0.5 exampleFeatures 0).1,
   (claim_C4_predicted_trend 0.5 exampleFeatures 0).2.2.2.2
     (trendPointAt 0.5 exampleFeatures 0 1)
     (List.mem_map.mpr ⟨0, by simp, rfl⟩)⟩

/-- Claim C10: the prediction depends on only 8 of the 17 feature fields:
two feature vectors agreeing on heart_rate_mean, steps_mean,
sleep_hours_mean, calories_mean, age, trend_heart_rate, trend_steps and
trend_sleep (with the same reference `now`) yield identical
`PredictionResult`s, so the std/max/min/total, gender_encoded and
days_with_data fields have no influence on the output. -/
theorem claim_C10_only_eight_fields (f g : FeatureVector) (now : Int)
    (h1 : f.heart_rate_mean = g.heart_rate_mean) (h2 : f.steps_mean = g.steps_mean)
    (h3 : f.sleep_hours_mean = g.sleep_hours_mean) (h4 : f.calories_mean = g.calories_mean)
    (h5 : f.age = g.age) (h6 : f.trend_heart_rate = g.trend_heart_rate)
    (h7 : f.trend_steps = g.trend_steps) (h8 : f.trend_sleep = g.trend_sleep) :
    predict f now = predict g now := by
  obtain ⟨a1, a2, a3, a4, a5, a6, a7, a8, a9, a10, a11, a12, a13, a14, a15, a16, a17⟩ := f
  obtain ⟨b1, b2, b3, b4, b5, b6, b7, b8, b9, b10, b11, b12, b13, b14, b15, b16, b17⟩ := g
  dsimp only at h1 h2 h3 h4 h5 h6 h7 h8
  subst h1
  subst h2
  subst h3
  subst h4
  subst h5
  subst h6
  subst h7
  subst h8
  rfl

theorem claim_C10_witness :
    predict exampleFeatures 0
      = predict { exampleFeatures with
                  heart_rate_std := 9
                  heart_rate_max := 120
                  heart_rate_min := 40
                  steps_std := 500
                  steps_total := 60000
                  sleep_hours_std := 2
                  calories_std := 300
                  gender_encoded := 1
                  days_with_data := 30 } 0 :=
  claim_C10_only_eight_fields _ _ 0 rfl rfl rfl rfl rfl rfl rfl rfl
